import Mathlib

/-!
Verification development for the funkyd caching recursive DNS resolver.

The definitions below are a shallow embedding of the resolver core:
the query pipeline of `mutex_server.go` (`GetConnection`, `attemptExchange`,
`RecursiveQuery`, `RetrieveRecords`, `HandleDNS`) and the helpers of
`server.go` (`processResults`, `sendServfail`, `logQuery`).  External
collaborators that the pipeline is parameterized over in the source
(the `Client` and `ConnPool` interfaces, injected for testing) appear here
as explicit function arguments; side effects (metric increments, writes to
the client, connections handed to the pool) are recorded in trace
structures.  Durations and instants are modeled as natural numbers.
-/

deriving instance DecidableEq for Except

/-- One entry of a DNS question section: name and query type (uint16). -/
structure Question where
  name : String
  qtype : Nat
deriving DecidableEq, Repr

/-- One resource record of an answer section: its presentation string
(as produced by the dns library String method) and its TTL. -/
structure RR where
  str : String
  ttl : Nat
deriving DecidableEq, Repr

/-- A DNS message, restricted to the header bits and sections the
resolver core reads or writes. -/
structure DnsMsg where
  id : Nat
  opcode : Nat
  response : Bool
  authoritative : Bool
  recursionDesired : Bool
  recursionAvailable : Bool
  checkingDisabled : Bool
  rcode : Nat
  question : List Question
  answer : List RR
deriving DecidableEq, Repr

/-- The zero-valued message, Go `dns.Msg{}`. -/
def emptyMsg : DnsMsg :=
  { id := 0, opcode := 0, response := false, authoritative := false,
    recursionDesired := false, recursionAvailable := false,
    checkingDisabled := false, rcode := 0, question := [], answer := [] }

/-- miekg/dns `Msg.SetReply(request)` applied to `msg`: copy id and opcode,
mark as response, copy rd and cd bits when the opcode is QUERY (0), reset
the rcode to success, and copy the first question when the request has one.
The ra and aa bits are NOT touched. -/
def setReply (request msg : DnsMsg) : DnsMsg :=
  let m1 := { msg with id := request.id, response := true,
                       opcode := request.opcode, rcode := 0 }
  let m2 :=
    if m1.opcode = 0 then
      { m1 with recursionDesired := request.recursionDesired,
                checkingDisabled := request.checkingDisabled }
    else m1
  match request.question with
  | [] => m2
  | q :: _ => { m2 with question := [q] }

/-- miekg/dns `Msg.SetRcode(request, rcode)`: `SetReply` then set the rcode. -/
def setRcode (request msg : DnsMsg) (rcode : Nat) : DnsMsg :=
  { setReply request msg with rcode := rcode }

/-- The outbound query built at the top of `RecursiveQuery`
(mutex_server.go): `m.SetQuestion(domain, rrtype); m.RecursionDesired = true`. -/
def mkQuery (domain : String) (rrtype : Nat) : DnsMsg :=
  { emptyMsg with recursionDesired := true, question := [⟨domain, rrtype⟩] }

/-- Modelled from the spec: `ConnEntry` (its implementation is not under
src/, only its callers and mocks are).  Spec §3: one upstream connection
plus health counters `total_rtt`, `exchanges`, `errors`.  The transport
handle itself is irrelevant to the claims; the address identifies it. -/
structure ConnEntry where
  address : String
  totalRtt : Nat
  exchanges : Nat
  errors : Nat
deriving DecidableEq, Repr

/-- Modelled from the spec: `ce.add_exchange(rtt)` records one exchange,
accumulating the round-trip time and bumping the exchange counter. -/
def ConnEntry.addExchange (ce : ConnEntry) (rtt : Nat) : ConnEntry :=
  { ce with totalRtt := ce.totalRtt + rtt, exchanges := ce.exchanges + 1 }

/-- Modelled from the spec: `ce.add_error()` bumps the error counter. -/
def ConnEntry.addError (ce : ConnEntry) : ConnEntry :=
  { ce with errors := ce.errors + 1 }

/-- Modelled from the spec: `ce.GetAddress()` returns the upstream address. -/
def ConnEntry.getAddress (ce : ConnEntry) : String :=
  ce.address

/-- Modelled from the spec: `Upstream` (implementation not under src/).
Spec §3: name, weight, address. -/
structure Upstream where
  name : String
  address : String
  weight : Nat
deriving DecidableEq, Repr

/-- The Go zero value `Upstream{}`, compared against in `GetConnection`. -/
def emptyUpstream : Upstream :=
  { name := "", address := "", weight := 0 }

/-- The `Response` cache-entry record (fields as used by `ParseZoneFile`
and `processResults` in the source: Key, Entry, Ttl, CreationTime, Qtype). -/
structure Response where
  key : String
  qtype : Nat
  entry : DnsMsg
  creationTime : Nat
  ttl : Nat
deriving DecidableEq, Repr

/-- `processResults` from server.go lines 59-66: build the cache Response
from an upstream reply.  The Go composite literal assigns Entry,
CreationTime, Key and Qtype only; the Ttl field is left at its zero
value 0, and Key is the domain exactly as passed (no lowercasing).
The accompanying Go error result is always nil, so it is omitted. -/
def processResults (r : DnsMsg) (domain : String) (rrtype : Nat) (now : Nat) : Response :=
  { key := domain, qtype := rrtype, entry := r, creationTime := now, ttl := 0 }

/-- Definition following the words of the spec (§4.3 TTL source), for
comparison with `processResults`: the minimum TTL over the answer RRs,
0 when there are no answers. -/
def specMinAnswerTtl (answers : List RR) : Nat :=
  match answers with
  | [] => 0
  | a :: rest => rest.foldl (fun acc rr => min acc rr.ttl) a.ttl

/-- ASCII lowercasing of one character (Go strings.ToLower restricted to
ASCII, which is all a DNS domain name contains). -/
def lowerChar (c : Char) : Char :=
  if 65 ≤ c.toNat ∧ c.toNat ≤ 90 then Char.ofNat (c.toNat + 32) else c

/-- ASCII lowercasing of a string, character by character. -/
def strToLower (s : String) : String :=
  ⟨s.data.map lowerChar⟩

/-- Association lookup on the cache map, keyed by (key, qtype). -/
def cacheLookup (entries : List ((String × Nat) × Response)) (k : String × Nat) : Option Response :=
  match entries with
  | [] => none
  | (k2, v) :: rest => if k2 = k then some v else cacheLookup rest k

/-- Modelled from the spec: `RecordCache.get(name, qtype)` (the RecordCache
implementation is not under src/).  Spec §4.3: lowercase the name before
keying; return the response only if `now < creation_time + ttl`; expired
entries are reported as misses. -/
def RecordCache.get (entries : List ((String × Nat) × Response)) (now : Nat)
    (name : String) (qtype : Nat) : Option Response :=
  match cacheLookup entries (strToLower name, qtype) with
  | some r => if now < r.creationTime + r.ttl then some r else none
  | none => none

/-- Split a character list around every single space, Go
`strings.Split(s, " ")`: the result is never empty. -/
def splitFields : List Char → List (List Char)
  | [] => [[]]
  | c :: rest =>
    let r := splitFields rest
    if c = (' ') then [] :: r
    else
      match r with
      | [] => [[c]]
      | f :: fs => (c :: f) :: fs

/-- The rightmost whitespace-separated field of a resource record string:
`strings.Split(rr.String(), " ")` followed by taking the last element
(logQuery, server.go lines 80 and 85). -/
def lastField (s : String) : String :=
  ⟨(splitFields s.data).getLastD []⟩

/-- One structured record emitted by the query logger (server.go
lines 81-88): question name and type, message opcode, the rightmost field of the answer, the bracketed source, and the query duration. -/
structure LogRecord where
  name : String
  qtype : Nat
  opcode : Nat
  answer : String
  answerSource : String
  duration : Nat
deriving DecidableEq, Repr

/-- The inner structure of `logQuery`: for one fixed answer section,
emit one record per question (outer loop) and per answer (inner loop). -/
def logQueryAux (source : String) (dur : Nat) (opcode : Nat) (ans : List RR) :
    List Question → List LogRecord
  | [] => []
  | q :: qs =>
    ans.map (fun rr =>
      { name := q.name, qtype := q.qtype, opcode := opcode,
        answer := lastField rr.str,
        answerSource := "[" ++ source ++ "]", duration := dur }) ++
    logQueryAux source dur opcode ans qs

/-- `logQuery` from server.go lines 76-95: one log record per
(question, answer) pair of the response message. -/
def logQuery (source : String) (dur : Nat) (response : DnsMsg) : List LogRecord :=
  logQueryAux source dur response.opcode response.answer response.question

/-- Observable effects of `sendServfail` (server.go lines 68-74):
the counter increment, the message written, and the log records emitted. -/
structure ServfailTrace where
  servfailIncs : Nat
  written : List DnsMsg
  logRecords : List LogRecord
deriving DecidableEq, Repr

/-- `sendServfail` from server.go lines 68-74: increment
`LocalServfailsCounter`, build `m := dns.Msg{}` and `m.SetRcode(r, 2)`
(rcode 2 is SERVFAIL), write m, then call `logQuery("servfail", d, m)`. -/
def sendServfail (dur : Nat) (r : DnsMsg) : ServfailTrace :=
  let m := setRcode r emptyMsg 2
  { servfailIncs := 1, written := [m], logRecords := logQuery ("servfail") dur m }

/-- The Go multi-value result of `Client.ExchangeWithConn`:
a reply, a round-trip time, and an error flag (all three are returned
together in Go, and the rtt is consumed even on the error path). -/
structure ExchResult where
  reply : DnsMsg
  rtt : Nat
  isErr : Bool
deriving DecidableEq, Repr

/-- Observable effects of one `attemptExchange` call: its result, the
connection entries handed to `pool.CloseConnection`, and the addresses on
which `UpstreamErrorsCounter` was incremented. -/
structure AttemptTrace where
  result : Except String (ConnEntry × DnsMsg)
  closedConns : List ConnEntry
  upstreamErrIncs : List String
deriving DecidableEq, Repr

/-- `attemptExchange` from mutex_server.go lines 102-147.  `getConn` is the
outcome of `s.GetConnection()`; `exch` is `ExchangeWithConn` of the injected client
 on the checked-out connection.  Note the source calls
`ce.AddExchange(rtt)` before inspecting the exchange error, so the
exchange counter moves on both the success and the error path; on error it
additionally calls `ce.AddError()`, `s.connPool.CloseConnection(ce)` and
increments the upstream error counter, returning an error and a fresh
empty entry. -/
def attemptExchange (getConn : Except String ConnEntry)
    (exch : ConnEntry → ExchResult) (m : DnsMsg) : AttemptTrace :=
  match getConn with
  | .error e =>
    { result := .error ("error getting connection from pool: " ++ e),
      closedConns := [], upstreamErrIncs := [] }
  | .ok ce =>
    let address := ce.getAddress
    let x := exch ce
    let ce1 := ce.addExchange x.rtt
    if x.isErr then
      let ce2 := ce1.addError
      { result := .error ("error looking up domain [" ++ (match m.question with
          | [] => ""
          | q :: _ => q.name) ++ "] on server [" ++ address ++ "]"),
        closedConns := [ce2], upstreamErrIncs := [address] }
    else
      { result := .ok (ce1, x.reply), closedConns := [], upstreamErrIncs := [] }

/-- Accumulated effects of the retry loop inside `RecursiveQuery`. -/
structure LoopTrace where
  result : Except String (ConnEntry × DnsMsg)
  attemptCalls : Nat
  closedConns : List ConnEntry
  upstreamErrIncs : List String
deriving DecidableEq, Repr

/-- The retry loop of `RecursiveQuery` (mutex_server.go lines 162-178):
`for i := 0; i <= config.UpstreamRetries; i++` calling `attemptExchange`
and breaking on the first success.  `i` is the loop counter and `rem` the
number of further iterations the bound still allows (initially
`UpstreamRetries`).  The per-iteration oracles `getConnO` and `exchO`
supply the pool and client outcomes seen by the i-th call. -/
def rqLoop (getConnO : Nat → Except String ConnEntry)
    (exchO : Nat → ConnEntry → ExchResult) (m : DnsMsg) :
    Nat → Nat → LoopTrace
  | i, 0 =>
    let t := attemptExchange (getConnO i) (exchO i) m
    match t.result with
    | .ok v => ⟨.ok v, 1, t.closedConns, t.upstreamErrIncs⟩
    | .error e => ⟨.error e, 1, t.closedConns, t.upstreamErrIncs⟩
  | i, rem + 1 =>
    let t := attemptExchange (getConnO i) (exchO i) m
    match t.result with
    | .ok v => ⟨.ok v, 1, t.closedConns, t.upstreamErrIncs⟩
    | .error _ =>
      let rest := rqLoop getConnO exchO m (i + 1) rem
      ⟨rest.result, rest.attemptCalls + 1,
       t.closedConns ++ rest.closedConns,
       t.upstreamErrIncs ++ rest.upstreamErrIncs⟩

/-- Observable effects of one `RecursiveQuery` call: the returned
(response, source address) or error, how many times `attemptExchange` was
called, the connections closed and upstream errors counted inside the
attempts, the entries passed to `pool.Add`, those rejected by the pool,
and the entries the caller closed after a rejected Add. -/
structure RQTrace where
  result : Except String (Response × String)
  attemptCalls : Nat
  closedConns : List ConnEntry
  upstreamErrIncs : List String
  poolAddCalls : List ConnEntry
  poolAddRejected : List ConnEntry
  callerClosedAfterAdd : List ConnEntry
deriving DecidableEq, Repr

/-- `RecursiveQuery` from mutex_server.go lines 149-212.  After the retry
loop: on total failure return the wrapped error; on success call
`s.connPool.Add(ce)` whose rejection (modelled from the spec, the ConnPool
implementation not being under src/: a full bucket rejects the entry) is
only logged and disregarded by the source, which closes nothing and
proceeds to `processResults`, returning the response with
`ce.GetAddress()` as the source. -/
def RecursiveQuery (retries : Nat) (getConnO : Nat → Except String ConnEntry)
    (exchO : Nat → ConnEntry → ExchResult) (poolAddRejects : ConnEntry → Bool)
    (now : Nat) (domain : String) (rrtype : Nat) : RQTrace :=
  let m := mkQuery domain rrtype
  let lt := rqLoop getConnO exchO m 0 retries
  match lt.result with
  | .error e =>
    { result := .error ("failed to complete any exchanges with upstreams: " ++ e),
      attemptCalls := lt.attemptCalls, closedConns := lt.closedConns,
      upstreamErrIncs := lt.upstreamErrIncs, poolAddCalls := [],
      poolAddRejected := [], callerClosedAfterAdd := [] }
  | .ok (ce, rmsg) =>
    { result := .ok (processResults rmsg domain rrtype now, ce.getAddress),
      attemptCalls := lt.attemptCalls, closedConns := lt.closedConns,
      upstreamErrIncs := lt.upstreamErrIncs, poolAddCalls := [ce],
      poolAddRejected := if poolAddRejects ce then [ce] else [],
      callerClosedAfterAdd := [] }

/-- Observable effects of one `RetrieveRecords` call: the result, the two
cache-hit counters, the inserts performed on each cache, and the inner
`RecursiveQuery` trace when one was run. -/
structure RRTrace where
  result : Except String (Response × String)
  cacheHitsIncs : Nat
  hostedCacheHitsIncs : Nat
  cacheInserts : List Response
  hostedCacheInserts : List Response
  rq : Option RQTrace
deriving DecidableEq, Repr

/-- `RetrieveRecords` from mutex_server.go lines 216-240: lookup cache
first (hit increments `CacheHitsCounter`, source "cache"), then hosted
cache (hit increments `HostedCacheHitsCounter`, source "cache"), else run
the recursive query; on its success `s.Cache.Add(response)` and return the
upstream source; the hosted cache is never written. -/
def RetrieveRecords (cache hosted : List ((String × Nat) × Response)) (now : Nat)
    (recQuery : String → Nat → RQTrace) (domain : String) (rrtype : Nat) : RRTrace :=
  match RecordCache.get cache now domain rrtype with
  | some resp =>
    { result := .ok (resp, "cache"), cacheHitsIncs := 1, hostedCacheHitsIncs := 0,
      cacheInserts := [], hostedCacheInserts := [], rq := none }
  | none =>
  match RecordCache.get hosted now domain rrtype with
  | some resp =>
    { result := .ok (resp, "cache"), cacheHitsIncs := 0, hostedCacheHitsIncs := 1,
      cacheInserts := [], hostedCacheInserts := [], rq := none }
  | none =>
    let t := recQuery domain rrtype
    match t.result with
    | .error e =>
      { result := .error ("error running recursive query on domain [" ++ domain ++ "]: " ++ e),
        cacheHitsIncs := 0, hostedCacheHitsIncs := 0,
        cacheInserts := [], hostedCacheInserts := [], rq := some t }
    | .ok (resp, source) =>
      { result := .ok (resp, source), cacheHitsIncs := 0, hostedCacheHitsIncs := 0,
        cacheInserts := [resp], hostedCacheInserts := [], rq := some t }

/-- Observable effects of one `GetConnection` call: the result and the
addresses on which `ReusedConnectionsCounter` was incremented. -/
structure GetConnTrace where
  result : Except String ConnEntry
  reusedIncs : List String
deriving DecidableEq, Repr

/-- `GetConnection` from mutex_server.go lines 56-96.  `poolGet` is the Go
triple returned by `s.connPool.Get()`; a nil error together with a
non-zero Upstream signals a pool miss and the caller dials through
`newConn` (the `s.newConnection` wrapper); a non-nil error is returned.
Both the pool-hit path and the successful fresh-dial path fall through to
the shared tail that increments `ReusedConnectionsCounter` with the
address of the entry about to be returned. -/
def GetConnection (poolGet : ConnEntry × Upstream × Option String)
    (newConn : Upstream → Except String ConnEntry) : GetConnTrace :=
  let (ce, upstream, err) := poolGet
  if err = none ∧ upstream ≠ emptyUpstream then
    match newConn upstream with
    | .error e => { result := .error e, reusedIncs := [] }
    | .ok ce2 => { result := .ok ce2, reusedIncs := [ce2.getAddress] }
  else if err ≠ none then
    { result := .error (err.getD ("")), reusedIncs := [] }
  else
    { result := .ok ce, reusedIncs := [ce.getAddress] }

/-- Observable effects of one `HandleDNS` call: whether the handler hit
the out-of-bounds index on an empty question section (a Go panic), the
messages written to the client, the servfail counter increments, the query
log records, and the inner `RetrieveRecords` trace. -/
structure HandleTrace where
  panicked : Bool
  written : List DnsMsg
  servfailIncs : Nat
  logRecords : List LogRecord
  rr : Option RRTrace
deriving DecidableEq, Repr

/-- `HandleDNS` from mutex_server.go lines 246-301.  The source builds
`msg := dns.Msg{}; msg.SetReply(r)` and immediately indexes
`msg.Question[0]` — for an inbound message with an empty question section
`SetReply` copies no question and the index is out of bounds, so nothing
is written (modeled by the `panicked` trace).  Otherwise the worker runs
`RetrieveRecords`; on error it sends SERVFAIL, on success it copies the
cached entry, applies `SetRcode(r, entry.Rcode)` (which preserves the
question and id of `r` but leaves the aa and ra bits of the cached entry
untouched; the local `msg` that had `Authoritative=false,
RecursionAvailable=true` set is never written), writes the reply and logs
the query. -/
def HandleDNS (retries : Nat) (getConnO : Nat → Except String ConnEntry)
    (exchO : Nat → ConnEntry → ExchResult) (poolAddRejects : ConnEntry → Bool)
    (cache hosted : List ((String × Nat) × Response)) (now : Nat)
    (dur : Nat) (r : DnsMsg) : HandleTrace :=
  match r.question with
  | [] =>
    { panicked := true, written := [], servfailIncs := 0,
      logRecords := [], rr := none }
  | q :: _ =>
    let t := RetrieveRecords cache hosted now
      (fun d ty => RecursiveQuery retries getConnO exchO poolAddRejects now d ty)
      q.name q.qtype
    match t.result with
    | .error _ =>
      let sf := sendServfail dur r
      { panicked := false, written := sf.written,
        servfailIncs := sf.servfailIncs, logRecords := sf.logRecords,
        rr := some t }
    | .ok (resp, source) =>
      let reply := setRcode r resp.entry resp.entry.rcode
      { panicked := false, written := [reply], servfailIncs := 0,
        logRecords := logQuery source dur reply, rr := some t }


/-- When every call to `attemptExchange` errors, the retry loop runs
`rem + 1` attempts and ends in an error. -/
theorem rqLoop_all_fail (gO : Nat → Except String ConnEntry)
    (eO : Nat → ConnEntry → ExchResult) (m : DnsMsg)
    (hfail : ∀ i, ∃ e, (attemptExchange (gO i) (eO i) m).result = Except.error e) :
    ∀ rem i, (∃ e, (rqLoop gO eO m i rem).result = Except.error e) ∧
      (rqLoop gO eO m i rem).attemptCalls = rem + 1 := by
  intro rem
  induction rem with
  | zero =>
    intro i
    obtain ⟨e, he⟩ := hfail i
    exact ⟨⟨e, by simp [rqLoop, he]⟩, by simp [rqLoop, he]⟩
  | succ n ih =>
    intro i
    obtain ⟨e, he⟩ := hfail i
    obtain ⟨⟨e2, he2⟩, hn⟩ := ih (i + 1)
    exact ⟨⟨e2, by simp [rqLoop, he, he2]⟩, by simp [rqLoop, he, hn]⟩

/-- On a successful retry loop, `RecursiveQuery` returns the processed
response with the address of the succeeding entry, hands exactly that entry to
`pool.Add`, records a rejection when the pool signals one, and closes
nothing after the Add. -/
theorem recursiveQuery_ok_shape (retries : Nat)
    (gO : Nat → Except String ConnEntry) (eO : Nat → ConnEntry → ExchResult)
    (pA : ConnEntry → Bool) (now : Nat) (domain : String) (rrtype : Nat)
    (ce : ConnEntry) (rmsg : DnsMsg)
    (hok : (rqLoop gO eO (mkQuery domain rrtype) 0 retries).result = Except.ok (ce, rmsg)) :
    (RecursiveQuery retries gO eO pA now domain rrtype).result
        = Except.ok (processResults rmsg domain rrtype now, ce.getAddress) ∧
    (RecursiveQuery retries gO eO pA now domain rrtype).poolAddCalls = [ce] ∧
    (RecursiveQuery retries gO eO pA now domain rrtype).poolAddRejected
        = (if pA ce then [ce] else []) ∧
    (RecursiveQuery retries gO eO pA now domain rrtype).callerClosedAfterAdd = [] := by
  simp [RecursiveQuery, hok]

/-- When every attempt fails, `RecursiveQuery` errors after exactly
`retries + 1` calls to `attemptExchange` and never touches the pool Add. -/
theorem recursiveQuery_all_fail (retries : Nat)
    (gO : Nat → Except String ConnEntry) (eO : Nat → ConnEntry → ExchResult)
    (pA : ConnEntry → Bool) (now : Nat) (domain : String) (rrtype : Nat)
    (hfail : ∀ i, ∃ e,
      (attemptExchange (gO i) (eO i) (mkQuery domain rrtype)).result = Except.error e) :
    (∃ e, (RecursiveQuery retries gO eO pA now domain rrtype).result = Except.error e) ∧
    (RecursiveQuery retries gO eO pA now domain rrtype).attemptCalls = retries + 1 ∧
    (RecursiveQuery retries gO eO pA now domain rrtype).poolAddCalls = [] := by
  obtain ⟨⟨e, he⟩, hn⟩ := rqLoop_all_fail gO eO (mkQuery domain rrtype) hfail retries 0
  refine ⟨?_, ?_, ?_⟩ <;> simp [RecursiveQuery, he, hn]

/-- C10: `HandleDNS` indexes `Question[0]` before any validation, so an
inbound DNS message with an empty question section makes the index
operation go out of bounds (a Go panic) and no reply is ever written. -/
theorem handleDNS_empty_question_out_of_bounds (retries : Nat)
    (gO : Nat → Except String ConnEntry) (eO : Nat → ConnEntry → ExchResult)
    (pA : ConnEntry → Bool) (cache hosted : List ((String × Nat) × Response))
    (now dur : Nat) (r : DnsMsg) (h : r.question = []) :
    (HandleDNS retries gO eO pA cache hosted now dur r).panicked = true ∧
    (HandleDNS retries gO eO pA cache hosted now dur r).written = [] := by
  simp [HandleDNS, h]

/-- C10 witness: the empty message has an empty question section and the
handler hits the out-of-bounds index without writing anything. -/
theorem handleDNS_empty_question_out_of_bounds_applied :
    (HandleDNS 0 (fun _ => Except.error ("")) (fun _ _ => ⟨emptyMsg, 0, true⟩)
        (fun _ => false) [] [] 0 0 emptyMsg).panicked = true ∧
    (HandleDNS 0 (fun _ => Except.error ("")) (fun _ _ => ⟨emptyMsg, 0, true⟩)
        (fun _ => false) [] [] 0 0 emptyMsg).written = [] :=
  handleDNS_empty_question_out_of_bounds 0 (fun _ => Except.error (""))
    (fun _ _ => ⟨emptyMsg, 0, true⟩) (fun _ => false) [] [] 0 0 emptyMsg rfl

/-- C9: every successful return from `GetConnection` increments
`ReusedConnectionsCounter` with the address of the returned entry — the shared
tail runs on the pool-hit path and on the fresh-dial path alike, so the
counter counts all successful acquisitions, not only pooled reuses. -/
theorem getConnection_counts_every_success
    (poolGet : ConnEntry × Upstream × Option String)
    (newConn : Upstream → Except String ConnEntry) (ce : ConnEntry)
    (h : (GetConnection poolGet newConn).result = Except.ok ce) :
    (GetConnection poolGet newConn).reusedIncs = [ce.getAddress] := by
  obtain ⟨ce0, up, err⟩ := poolGet
  by_cases h1 : err = none ∧ up ≠ emptyUpstream
  · cases hnc : newConn up with
    | error e => simp [GetConnection, h1, hnc] at h
    | ok ce2 =>
      simp [GetConnection, h1, hnc] at h ⊢
      rw [h]
  · by_cases h2 : err = none
    · have h3 : up = emptyUpstream := by
        by_contra h4
        exact h1 ⟨h2, h4⟩
      subst h3
      simp [GetConnection, h2] at h ⊢
      rw [h]
    · simp [GetConnection, h1, h2] at h

/-- C9 witness: a pool miss, answered by a fresh dial to u1, still
returns successfully and increments the reused-connections counter for
the freshly dialed address. -/
theorem getConnection_counts_every_success_applied :
    (GetConnection (⟨"", 0, 0, 0⟩, ⟨"u1", "", 0⟩, none)
        (fun _ => Except.ok ⟨"u1:853", 0, 0, 0⟩)).reusedIncs = ["u1:853"] :=
  getConnection_counts_every_success (⟨"", 0, 0, 0⟩, ⟨"u1", "", 0⟩, none)
    (fun _ => Except.ok ⟨"u1:853", 0, 0, 0⟩) ⟨"u1:853", 0, 0, 0⟩ (by decide)

/-- C2 (amended): `attemptExchange` records `add_exchange` with the
measured rtt on every completed exchange call, error or not, because the
source calls `ce.AddExchange(rtt)` before inspecting the error; on
success the updated entry is returned with the reply and nothing is
closed or counted; on error the entry additionally records `add_error`,
is handed to `pool.CloseConnection`, the upstream error counter is
incremented for its address, and an error is returned so the connection
is not reused. -/
theorem attemptExchange_accounting (getConn : Except String ConnEntry)
    (exch : ConnEntry → ExchResult) (m : DnsMsg) (ce : ConnEntry)
    (hconn : getConn = Except.ok ce) :
    ((exch ce).isErr = false →
      (attemptExchange getConn exch m).result
          = Except.ok (ce.addExchange (exch ce).rtt, (exch ce).reply) ∧
      (attemptExchange getConn exch m).closedConns = [] ∧
      (attemptExchange getConn exch m).upstreamErrIncs = []) ∧
    ((exch ce).isErr = true →
      (∃ e, (attemptExchange getConn exch m).result = Except.error e) ∧
      (attemptExchange getConn exch m).closedConns
          = [(ce.addExchange (exch ce).rtt).addError] ∧
      (attemptExchange getConn exch m).upstreamErrIncs = [ce.getAddress]) := by
  subst hconn
  constructor
  · intro hok
    refine ⟨?_, ?_, ?_⟩ <;> simp [attemptExchange, hok]
  · intro herr
    refine ⟨?_, ?_, ?_⟩ <;> simp [attemptExchange, herr]

/-- C2 counterexample: the claim says the exchange counter moves exactly
on success, but on a failed exchange (rtt 7) over a fresh entry the entry
handed to `pool.CloseConnection` has its exchange counter already bumped
to 1 and its accumulated rtt set to 7, alongside the error count. -/
theorem attemptExchange_error_still_counts_exchange :
    (attemptExchange (Except.ok ⟨"1.1.1.1:853", 0, 0, 0⟩)
        (fun _ => ⟨emptyMsg, 7, true⟩) (mkQuery ("example.com.") 1)).closedConns
      = [⟨"1.1.1.1:853", 7, 1, 1⟩] := by decide

/-- A concrete upstream reply: two A answers with TTLs 60 and 30. -/
def replyMsg : DnsMsg :=
  { emptyMsg with
    response := true, recursionAvailable := true,
    question := [⟨"example.com.", 1⟩],
    answer := [⟨"example.com. 60 IN A 1.2.3.4", 60⟩,
               ⟨"example.com. 30 IN A 5.6.7.8", 30⟩] }

/-- C3: at a reply whose answer TTLs are 60 and 30, `processResults`
snapshots the creation time but leaves the Response TTL at the Go zero
value 0 — the composite literal in server.go lines 60-65 never assigns
the Ttl field — while the minimum answer TTL the spec prescribes is 30.
In consequence a `RecordCache.get` at any later instant reports the
freshly inserted entry as already expired. -/
theorem processResults_ttl_is_zero_not_min :
    (processResults replyMsg ("example.com.") 1 1000).creationTime = 1000 ∧
    (processResults replyMsg ("example.com.") 1 1000).ttl = 0 ∧
    specMinAnswerTtl replyMsg.answer = 30 ∧
    RecordCache.get
      [(((processResults replyMsg ("example.com.") 1 1000).key, 1),
        processResults replyMsg ("example.com.") 1 1000)]
      1000 ("example.com.") 1 = none := by decide

/-- A reply for a mixed-case query name. -/
def replyMixedCase : DnsMsg :=
  { emptyMsg with
    response := true, recursionAvailable := true,
    question := [⟨"ExAmple.com.", 1⟩],
    answer := [⟨"ExAmple.com. 60 IN A 1.2.3.4", 60⟩] }

/-- C6: `processResults` stores the queried domain verbatim as the cache
key — for the mixed-case domain the key is not the lowercased name — so
an entry inserted under a mixed-case key can never be found by the
lowercasing lookup the spec prescribes for `RecordCache.get`. -/
theorem processResults_key_is_not_lowercased :
    (processResults replyMixedCase ("ExAmple.com.") 1 5).key = "ExAmple.com." ∧
    (processResults replyMixedCase ("ExAmple.com.") 1 5).key
        ≠ strToLower ("ExAmple.com.") ∧
    cacheLookup
      [(((processResults replyMixedCase ("ExAmple.com.") 1 5).key, 1),
        processResults replyMixedCase ("ExAmple.com.") 1 5)]
      (strToLower ("ExAmple.com."), 1) = none := by decide

/-- C4 (amended): after a successful exchange `RecursiveQuery` hands the
succeeding entry to `pool.Add`; when the pool rejects it the source only
logs the rejection ("continuing without cache, disregarding error") and
closes nothing — the rejected entry is not closed by the caller, and the
query still returns the processed response. -/
theorem recursiveQuery_pool_rejection_disregarded (retries : Nat)
    (gO : Nat → Except String ConnEntry) (eO : Nat → ConnEntry → ExchResult)
    (pA : ConnEntry → Bool) (now : Nat) (domain : String) (rrtype : Nat)
    (ce : ConnEntry) (rmsg : DnsMsg)
    (hok : (rqLoop gO eO (mkQuery domain rrtype) 0 retries).result = Except.ok (ce, rmsg)) :
    (RecursiveQuery retries gO eO pA now domain rrtype).poolAddCalls = [ce] ∧
    (pA ce = true →
      (RecursiveQuery retries gO eO pA now domain rrtype).poolAddRejected = [ce]) ∧
    (RecursiveQuery retries gO eO pA now domain rrtype).callerClosedAfterAdd = [] ∧
    (RecursiveQuery retries gO eO pA now domain rrtype).result
        = Except.ok (processResults rmsg domain rrtype now, ce.getAddress) := by
  obtain ⟨h1, h2, h3, h4⟩ :=
    recursiveQuery_ok_shape retries gO eO pA now domain rrtype ce rmsg hok
  refine ⟨h2, ?_, h4, h1⟩
  intro hrej
  rw [h3, hrej]
  simp

/-- C4 counterexample: a fresh dial to 1.1.1.1 succeeds with rtt 7, the
pool rejects the returned entry (bucket full), and the whole
`RecursiveQuery` run closes no connection at all — in particular the
caller does not close the rejected entry, contradicting the claim. -/
theorem recursiveQuery_rejected_entry_never_closed :
    (RecursiveQuery 1 (fun _ => Except.ok ⟨"1.1.1.1:853", 0, 0, 0⟩)
        (fun _ _ => ⟨replyMsg, 7, false⟩) (fun _ => true) 0
        ("example.com.") 1).poolAddRejected = [⟨"1.1.1.1:853", 7, 1, 0⟩] ∧
    (RecursiveQuery 1 (fun _ => Except.ok ⟨"1.1.1.1:853", 0, 0, 0⟩)
        (fun _ _ => ⟨replyMsg, 7, false⟩) (fun _ => true) 0
        ("example.com.") 1).callerClosedAfterAdd = [] ∧
    (RecursiveQuery 1 (fun _ => Except.ok ⟨"1.1.1.1:853", 0, 0, 0⟩)
        (fun _ _ => ⟨replyMsg, 7, false⟩) (fun _ => true) 0
        ("example.com.") 1).closedConns = [] := by decide

/-- C4 witness: the amended statement applied at the same concrete run:
the entry is handed to pool.Add, its rejection is recorded, and the
caller closes nothing. -/
theorem recursiveQuery_pool_rejection_disregarded_applied :
    (RecursiveQuery 1 (fun _ => Except.ok ⟨"1.1.1.1:853", 0, 0, 0⟩)
        (fun _ _ => ⟨replyMsg, 7, false⟩) (fun _ => true) 0
        ("example.com.") 1).poolAddCalls = [⟨"1.1.1.1:853", 7, 1, 0⟩] ∧
    (RecursiveQuery 1 (fun _ => Except.ok ⟨"1.1.1.1:853", 0, 0, 0⟩)
        (fun _ _ => ⟨replyMsg, 7, false⟩) (fun _ => true) 0
        ("example.com.") 1).callerClosedAfterAdd = [] :=
  let h := recursiveQuery_pool_rejection_disregarded 1
    (fun _ => Except.ok ⟨"1.1.1.1:853", 0, 0, 0⟩)
    (fun _ _ => ⟨replyMsg, 7, false⟩) (fun _ => true) 0
    ("example.com.") 1 ⟨"1.1.1.1:853", 7, 1, 0⟩ replyMsg (by decide)
  ⟨h.1, h.2.2.1⟩

/-- C2 witness: on a concrete failed exchange the amended accounting
holds: the closed entry carries the bumped exchange counter and the
upstream error counter is incremented for its address. -/
theorem attemptExchange_accounting_applied :
    (attemptExchange (Except.ok ⟨"1.1.1.1:853", 0, 0, 0⟩)
        (fun _ => ⟨emptyMsg, 7, true⟩) (mkQuery ("example.com.") 1)).upstreamErrIncs
      = ["1.1.1.1:853"] :=
  (((attemptExchange_accounting (Except.ok ⟨"1.1.1.1:853", 0, 0, 0⟩)
      (fun _ => ⟨emptyMsg, 7, true⟩) (mkQuery ("example.com.") 1)
      ⟨"1.1.1.1:853", 0, 0, 0⟩ rfl).2 rfl).2).2

/-- The logger emits `|answers|` records for each question. -/
theorem logQueryAux_length (source : String) (dur opcode : Nat) (ans : List RR) :
    ∀ qs : List Question,
      (logQueryAux source dur opcode ans qs).length = qs.length * ans.length := by
  intro qs
  induction qs with
  | nil => simp [logQueryAux]
  | cons q qs ih => simp [logQueryAux, ih, Nat.succ_mul, Nat.add_comm]

/-- Every emitted record takes its answer field from some answer RR, as
the rightmost space-separated field of that RR string, and carries the
bracketed source. -/
theorem logQueryAux_mem (source : String) (dur opcode : Nat) (ans : List RR) :
    ∀ qs : List Question, ∀ rec ∈ logQueryAux source dur opcode ans qs,
      ∃ rr ∈ ans, rec.answer = lastField rr.str ∧
        rec.answerSource = "[" ++ source ++ "]" := by
  intro qs
  induction qs with
  | nil => simp [logQueryAux]
  | cons q qs ih =>
    intro rec hrec
    simp only [logQueryAux, List.mem_append, List.mem_map] at hrec
    rcases hrec with ⟨rr, hrr, hre⟩ | htail
    · exact ⟨rr, hrr, by rw [← hre], by rw [← hre]⟩
    · exact ih rec htail

/-- A message with an empty answer section produces no log records. -/
theorem logQueryAux_nil_answer (source : String) (dur opcode : Nat) :
    ∀ qs : List Question, logQueryAux source dur opcode [] qs = [] := by
  intro qs
  induction qs with
  | nil => simp [logQueryAux]
  | cons q qs ih => simp [logQueryAux, ih]

/-- C7 (amended): the query logger emits exactly one structured record
per (question, answer) pair, each with the answer field equal to the
rightmost single-space-separated field of the RR string and the bracketed
source; for a SERVFAIL reply `sendServfail` does call
`logQuery("servfail", ...)` and does increment the servfail counter, but
the servfail message built by `SetRcode` has an empty answer section, so
no record at all is emitted. -/
theorem logQuery_per_pair_and_servfail_silent (source : String) (dur : Nat)
    (resp : DnsMsg) (dur2 : Nat) (r : DnsMsg) :
    (logQuery source dur resp).length
        = resp.question.length * resp.answer.length ∧
    (∀ rec ∈ logQuery source dur resp, ∃ rr ∈ resp.answer,
        rec.answer = lastField rr.str ∧
        rec.answerSource = "[" ++ source ++ "]") ∧
    (sendServfail dur2 r).logRecords = [] ∧
    (sendServfail dur2 r).servfailIncs = 1 := by
  refine ⟨logQueryAux_length source dur resp.opcode resp.answer resp.question,
          logQueryAux_mem source dur resp.opcode resp.answer resp.question, ?_, rfl⟩
  have hans : (setRcode r emptyMsg 2).answer = [] := by
    unfold setRcode setReply
    cases r.question <;> simp [emptyMsg] <;> split <;> rfl
  simp only [sendServfail, logQuery, hans]
  exact logQueryAux_nil_answer ("servfail") dur2 (setRcode r emptyMsg 2).opcode
    (setRcode r emptyMsg 2).question

/-- A well-formed inbound A query for example.com with id 42. -/
def inboundQuery : DnsMsg :=
  { emptyMsg with
    id := 42, recursionDesired := true,
    question := [⟨"example.com.", 1⟩] }

/-- C7 counterexample: for this concrete SERVFAIL reply the claim says a
record with answer_source servfail is emitted; in fact `logQuery` iterates
over the (empty) answer section of the servfail message and emits no
record, even though the counter moves and the message is written. -/
theorem sendServfail_emits_no_record :
    (sendServfail 5 inboundQuery).logRecords = [] ∧
    (sendServfail 5 inboundQuery).servfailIncs = 1 ∧
    (sendServfail 5 inboundQuery).written = [setRcode inboundQuery emptyMsg 2] := by
  decide

/-- C7 witness: the amended statement applied at a concrete reply with
one question and two answers (two records) and at a concrete servfail
run (no records). -/
theorem logQuery_per_pair_and_servfail_silent_applied :
    (logQuery ("1.1.1.1:853") 9 replyMsg).length = 2 ∧
    (sendServfail 9 inboundQuery).logRecords = [] := by
  have h := logQuery_per_pair_and_servfail_silent ("1.1.1.1:853") 9 replyMsg 9 inboundQuery
  exact ⟨by rw [h.1]; decide, h.2.2.1⟩

/-- `SetRcode` always takes the id from the request. -/
theorem setRcode_id (request msg : DnsMsg) (rc : Nat) :
    (setRcode request msg rc).id = request.id := by
  unfold setRcode setReply
  cases request.question <;> dsimp <;> split <;> rfl

/-- `SetRcode` copies the first question of a request that has one. -/
theorem setRcode_question (request msg : DnsMsg) (rc : Nat) (q : Question)
    (qs : List Question) (h : request.question = q :: qs) :
    (setRcode request msg rc).question = [q] := by
  unfold setRcode setReply
  rw [h]

/-- `SetRcode` sets exactly the requested rcode. -/
theorem setRcode_rcode (request msg : DnsMsg) (rc : Nat) :
    (setRcode request msg rc).rcode = rc := by
  unfold setRcode setReply
  cases request.question <;> dsimp

/-- `SetRcode` leaves the ra bit of the base message untouched. -/
theorem setRcode_ra (request msg : DnsMsg) (rc : Nat) :
    (setRcode request msg rc).recursionAvailable = msg.recursionAvailable := by
  unfold setRcode setReply
  cases request.question <;> dsimp <;> split <;> rfl

/-- `SetRcode` leaves the aa bit of the base message untouched. -/
theorem setRcode_aa (request msg : DnsMsg) (rc : Nat) :
    (setRcode request msg rc).authoritative = msg.authoritative := by
  unfold setRcode setReply
  cases request.question <;> dsimp <;> split <;> rfl

/-- C8 (amended): a successful reply is the copied cached entry with
`SetRcode(r, entry.Rcode)` applied, so it preserves the question section
and id of the inbound query, but its ra and aa flags are whatever the
cached entry carried — the handler sets ra=1 and aa=0 only on a local
`msg` that is never written. -/
theorem handleDNS_reply_metadata (retries : Nat)
    (gO : Nat → Except String ConnEntry) (eO : Nat → ConnEntry → ExchResult)
    (pA : ConnEntry → Bool) (cache hosted : List ((String × Nat) × Response))
    (now dur : Nat) (r : DnsMsg) (q : Question) (qs : List Question)
    (hq : r.question = q :: qs) (resp : Response) (source : String)
    (hok : (RetrieveRecords cache hosted now
        (fun d ty => RecursiveQuery retries gO eO pA now d ty) q.name q.qtype).result
        = Except.ok (resp, source)) :
    (HandleDNS retries gO eO pA cache hosted now dur r).written
        = [setRcode r resp.entry resp.entry.rcode] ∧
    (HandleDNS retries gO eO pA cache hosted now dur r).servfailIncs = 0 ∧
    (setRcode r resp.entry resp.entry.rcode).id = r.id ∧
    (setRcode r resp.entry resp.entry.rcode).question = [q] ∧
    (setRcode r resp.entry resp.entry.rcode).recursionAvailable
        = resp.entry.recursionAvailable ∧
    (setRcode r resp.entry resp.entry.rcode).authoritative
        = resp.entry.authoritative := by
  refine ⟨?_, ?_, setRcode_id r resp.entry resp.entry.rcode,
    setRcode_question r resp.entry resp.entry.rcode q qs hq,
    setRcode_ra r resp.entry resp.entry.rcode,
    setRcode_aa r resp.entry resp.entry.rcode⟩ <;>
  simp [HandleDNS, hq, hok]

/-- The cached entry of a locally hosted record: aa set, ra clear, as a
zone-file-derived message has. -/
def hostedEntry : DnsMsg :=
  { emptyMsg with
    authoritative := true, recursionAvailable := false,
    question := [⟨"host.example.com.", 1⟩],
    answer := [⟨"host.example.com. 60 IN A 9.9.9.9", 60⟩] }

/-- The cache Response wrapping `hostedEntry`, alive until instant 60. -/
def hostedResp : Response :=
  { key := "host.example.com.", qtype := 1, entry := hostedEntry,
    creationTime := 0, ttl := 60 }

/-- An inbound query for the hosted record, id 7. -/
def hostedReq : DnsMsg :=
  { emptyMsg with
    id := 7, recursionDesired := true,
    question := [⟨"host.example.com.", 1⟩] }

/-- C8 counterexample: a successful (non-servfail) reply served from a
cache entry whose message has aa=1 and ra=0 is written with aa=1 and
ra=0 — not with ra=1 and aa=0 as the claim states. -/
theorem handleDNS_reply_flags_not_forced :
    ((HandleDNS 0 (fun _ => Except.error ("")) (fun _ _ => ⟨emptyMsg, 0, true⟩)
        (fun _ => false) [(("host.example.com.", 1), hostedResp)] [] 10 3
        hostedReq).written.map
        (fun w => (w.recursionAvailable, w.authoritative))) = [(false, true)] ∧
    (HandleDNS 0 (fun _ => Except.error ("")) (fun _ _ => ⟨emptyMsg, 0, true⟩)
        (fun _ => false) [(("host.example.com.", 1), hostedResp)] [] 10 3
        hostedReq).servfailIncs = 0 := by decide

/-- C8 witness: the amended statement applied at the concrete cache hit:
the written reply is the cached entry with SetRcode applied, preserving
id and question of the inbound query. -/
theorem handleDNS_reply_metadata_applied :
    (HandleDNS 0 (fun _ => Except.error ("")) (fun _ _ => ⟨emptyMsg, 0, true⟩)
        (fun _ => false) [(("host.example.com.", 1), hostedResp)] [] 10 3
        hostedReq).written = [setRcode hostedReq hostedEntry 0] ∧
    (setRcode hostedReq hostedEntry 0).id = 7 :=
  let h := handleDNS_reply_metadata 0 (fun _ => Except.error (""))
    (fun _ _ => ⟨emptyMsg, 0, true⟩) (fun _ => false)
    [(("host.example.com.", 1), hostedResp)] [] 10 3 hostedReq
    ⟨"host.example.com.", 1⟩ [] rfl hostedResp ("cache") (by decide)
  ⟨h.1, h.2.2.1⟩

/-- C5: `RetrieveRecords` consults the lookup cache first — a hit
increments `cache_hits`, returns source "cache", runs no recursive query
and inserts nothing; on a lookup miss it consults the hosted cache the
same way; only when both miss does it invoke `RecursiveQuery`, and on its
success it inserts exactly the processed response into the lookup cache
and returns the address of the succeeding upstream as the source; the hosted
cache is never written on any path. -/
theorem retrieveRecords_cache_discipline (retries : Nat)
    (gO : Nat → Except String ConnEntry) (eO : Nat → ConnEntry → ExchResult)
    (pA : ConnEntry → Bool) (cache hosted : List ((String × Nat) × Response))
    (now : Nat) (domain : String) (rrtype : Nat) :
    (∀ resp, RecordCache.get cache now domain rrtype = some resp →
      (RetrieveRecords cache hosted now
          (fun d ty => RecursiveQuery retries gO eO pA now d ty) domain rrtype).result
          = Except.ok (resp, "cache") ∧
      (RetrieveRecords cache hosted now
          (fun d ty => RecursiveQuery retries gO eO pA now d ty) domain rrtype).cacheHitsIncs = 1 ∧
      (RetrieveRecords cache hosted now
          (fun d ty => RecursiveQuery retries gO eO pA now d ty) domain rrtype).rq = none ∧
      (RetrieveRecords cache hosted now
          (fun d ty => RecursiveQuery retries gO eO pA now d ty) domain rrtype).cacheInserts = []) ∧
    (RecordCache.get cache now domain rrtype = none →
      (∀ resp, RecordCache.get hosted now domain rrtype = some resp →
        (RetrieveRecords cache hosted now
            (fun d ty => RecursiveQuery retries gO eO pA now d ty) domain rrtype).result
            = Except.ok (resp, "cache") ∧
        (RetrieveRecords cache hosted now
            (fun d ty => RecursiveQuery retries gO eO pA now d ty) domain rrtype).hostedCacheHitsIncs = 1 ∧
        (RetrieveRecords cache hosted now
            (fun d ty => RecursiveQuery retries gO eO pA now d ty) domain rrtype).rq = none ∧
        (RetrieveRecords cache hosted now
            (fun d ty => RecursiveQuery retries gO eO pA now d ty) domain rrtype).cacheInserts = []) ∧
      (RecordCache.get hosted now domain rrtype = none →
        (RetrieveRecords cache hosted now
            (fun d ty => RecursiveQuery retries gO eO pA now d ty) domain rrtype).rq
            = some (RecursiveQuery retries gO eO pA now domain rrtype) ∧
        (∀ ce rmsg,
          (rqLoop gO eO (mkQuery domain rrtype) 0 retries).result = Except.ok (ce, rmsg) →
          (RetrieveRecords cache hosted now
              (fun d ty => RecursiveQuery retries gO eO pA now d ty) domain rrtype).result
              = Except.ok (processResults rmsg domain rrtype now, ce.getAddress) ∧
          (RetrieveRecords cache hosted now
              (fun d ty => RecursiveQuery retries gO eO pA now d ty) domain rrtype).cacheInserts
              = [processResults rmsg domain rrtype now]))) ∧
    (RetrieveRecords cache hosted now
        (fun d ty => RecursiveQuery retries gO eO pA now d ty) domain rrtype).hostedCacheInserts = [] := by
  refine ⟨?_, ?_, ?_⟩
  · intro resp h
    refine ⟨?_, ?_, ?_, ?_⟩ <;> simp [RetrieveRecords, h]
  · intro h1
    refine ⟨?_, ?_⟩
    · intro resp h2
      refine ⟨?_, ?_, ?_, ?_⟩ <;> simp [RetrieveRecords, h1, h2]
    · intro h2
      refine ⟨?_, ?_⟩
      · cases hres : (RecursiveQuery retries gO eO pA now domain rrtype).result with
        | error e => simp [RetrieveRecords, h1, h2, hres]
        | ok v =>
          obtain ⟨resp, src⟩ := v
          simp [RetrieveRecords, h1, h2, hres]
      · intro ce rmsg hloop
        have hshape := recursiveQuery_ok_shape retries gO eO pA now domain rrtype ce rmsg hloop
        constructor <;> simp [RetrieveRecords, h1, h2, hshape.1]
  · cases hga : RecordCache.get cache now domain rrtype with
    | some resp => simp [RetrieveRecords, hga]
    | none =>
      cases hgh : RecordCache.get hosted now domain rrtype with
      | some resp => simp [RetrieveRecords, hga, hgh]
      | none =>
        cases hres : (RecursiveQuery retries gO eO pA now domain rrtype).result with
        | error e => simp [RetrieveRecords, hga, hgh, hres]
        | ok v =>
          obtain ⟨resp, src⟩ := v
          simp [RetrieveRecords, hga, hgh, hres]

/-- C5 witness: the cache-first discipline applied at a concrete seeded
lookup cache: the hit is served from the cache with the counter moved. -/
theorem retrieveRecords_cache_discipline_applied :
    (RetrieveRecords [(("host.example.com.", 1), hostedResp)] [] 10
        (fun d ty => RecursiveQuery 0 (fun _ => Except.error (""))
          (fun _ _ => ⟨emptyMsg, 0, true⟩) (fun _ => false) 10 d ty)
        ("host.example.com.") 1).result = Except.ok (hostedResp, "cache") ∧
    (RetrieveRecords [(("host.example.com.", 1), hostedResp)] [] 10
        (fun d ty => RecursiveQuery 0 (fun _ => Except.error (""))
          (fun _ _ => ⟨emptyMsg, 0, true⟩) (fun _ => false) 10 d ty)
        ("host.example.com.") 1).cacheHitsIncs = 1 :=
  let h := (retrieveRecords_cache_discipline 0 (fun _ => Except.error (""))
    (fun _ _ => ⟨emptyMsg, 0, true⟩) (fun _ => false)
    [(("host.example.com.", 1), hostedResp)] [] 10 ("host.example.com.") 1).1
    hostedResp (by decide)
  ⟨h.1, h.2.1⟩

/-- C1: for a query on which every exchange attempt fails (and both
caches miss), the handler makes exactly `upstream_retries + 1` calls to
`attemptExchange` (which is at most that bound, the loop breaking on a
first success), then writes SERVFAIL to the client preserving the
original id and question, increments `local_servfails` once, and inserts
nothing into the lookup cache. -/
theorem handleDNS_all_upstreams_fail_servfails (retries : Nat)
    (gO : Nat → Except String ConnEntry) (eO : Nat → ConnEntry → ExchResult)
    (pA : ConnEntry → Bool) (cache hosted : List ((String × Nat) × Response))
    (now dur : Nat) (r : DnsMsg) (q : Question)
    (hq : r.question = [q])
    (hc : RecordCache.get cache now q.name q.qtype = none)
    (hh : RecordCache.get hosted now q.name q.qtype = none)
    (hfail : ∀ i, ∃ e,
      (attemptExchange (gO i) (eO i) (mkQuery q.name q.qtype)).result = Except.error e) :
    (HandleDNS retries gO eO pA cache hosted now dur r).panicked = false ∧
    (HandleDNS retries gO eO pA cache hosted now dur r).servfailIncs = 1 ∧
    (HandleDNS retries gO eO pA cache hosted now dur r).written
        = [setRcode r emptyMsg 2] ∧
    (setRcode r emptyMsg 2).id = r.id ∧
    (setRcode r emptyMsg 2).question = [q] ∧
    (setRcode r emptyMsg 2).rcode = 2 ∧
    ((HandleDNS retries gO eO pA cache hosted now dur r).rr.map RRTrace.cacheInserts)
        = some [] ∧
    (((HandleDNS retries gO eO pA cache hosted now dur r).rr.bind RRTrace.rq).map
        RQTrace.attemptCalls) = some (retries + 1) := by
  obtain ⟨⟨e, he⟩, hn, hpa⟩ :=
    recursiveQuery_all_fail retries gO eO pA now q.name q.qtype hfail
  have hres : ∃ e2,
      (RetrieveRecords cache hosted now
        (fun d ty => RecursiveQuery retries gO eO pA now d ty) q.name q.qtype).result
        = Except.error e2 := by
    simp [RetrieveRecords, hc, hh, he]
  obtain ⟨e2, hres⟩ := hres
  have hins : (RetrieveRecords cache hosted now
      (fun d ty => RecursiveQuery retries gO eO pA now d ty) q.name q.qtype).cacheInserts
      = [] := by
    simp [RetrieveRecords, hc, hh, he]
  have hrq : (RetrieveRecords cache hosted now
      (fun d ty => RecursiveQuery retries gO eO pA now d ty) q.name q.qtype).rq
      = some (RecursiveQuery retries gO eO pA now q.name q.qtype) := by
    simp [RetrieveRecords, hc, hh, he]
  refine ⟨?_, ?_, ?_, setRcode_id r emptyMsg 2,
    setRcode_question r emptyMsg 2 q [] hq, setRcode_rcode r emptyMsg 2, ?_, ?_⟩ <;>
    simp [HandleDNS, hq, hres, sendServfail, hins, hrq, hn]

/-- C1 witness: two upstreams worth of failing dials with
`upstream_retries = 1`: exactly 2 attempts are made, the servfail counter
moves once, and the retrieval performed no cache insert. -/
theorem handleDNS_all_upstreams_fail_servfails_applied :
    (HandleDNS 1 (fun _ => Except.error ("no dial"))
        (fun _ _ => ⟨emptyMsg, 0, true⟩) (fun _ => false) [] [] 0 0
        inboundQuery).servfailIncs = 1 ∧
    (((HandleDNS 1 (fun _ => Except.error ("no dial"))
        (fun _ _ => ⟨emptyMsg, 0, true⟩) (fun _ => false) [] [] 0 0
        inboundQuery).rr.bind RRTrace.rq).map RQTrace.attemptCalls) = some 2 ∧
    ((HandleDNS 1 (fun _ => Except.error ("no dial"))
        (fun _ _ => ⟨emptyMsg, 0, true⟩) (fun _ => false) [] [] 0 0
        inboundQuery).rr.map RRTrace.cacheInserts) = some [] :=
  let h := handleDNS_all_upstreams_fail_servfails 1 (fun _ => Except.error ("no dial"))
    (fun _ _ => ⟨emptyMsg, 0, true⟩) (fun _ => false) [] [] 0 0 inboundQuery
    ⟨"example.com.", 1⟩ rfl rfl rfl (fun _ => ⟨_, rfl⟩)
  ⟨h.2.1, h.2.2.2.2.2.2.2, h.2.2.2.2.2.2.1⟩
